import Mathlib

/-!
# Verification of the Amazônia dashboard pipeline (`streamlit_dashboard.py`)

Shallow embedding of the core "filter → derive → visualize" pipeline of the
Streamlit dashboard. Dates are modelled as integers (ordinal days), real
columns as rationals (the program computes with IEEE doubles; every claim
here is exact-arithmetic in nature). The `acesso_agua_potavel` column is
0/1 encoded in the CSV; it is modelled as `Bool`, with the pandas `.sum()`
over it rendered as a count of `true` entries.
-/

namespace Dashboard

/-- One row of `dados_integrados.csv` after `carregar_dados` parses the
`data` column. The flag and precomputed-rolling fields carry values only
when the corresponding column is present in the dataset (see `Dataset`);
`agua_label` models the string column added by line 198 of the script
(absent, i.e. `none`, in the loaded data). -/
structure Record where
  data : ℤ
  chuvas_reais_mm : ℚ
  anomalia_chuva_mm : ℚ
  volume_producao_tons : ℚ
  incidencia_doencas : ℚ
  acesso_agua_potavel : Bool
  indice_vulnerabilidade : ℚ
  indicador_seguranca_alimentar : ℚ
  variacao_climatica : Bool
  flag_incidente_alta : Bool
  chuva_rol_30d : ℚ
  producao_rol_7d : ℚ
  agua_label : Option String
deriving DecidableEq, Repr

/-- The loaded table `_df`: an ordered collection of records plus the
schema facts the script branches on (`"variacao_climatica" in df.columns`
etc., lines 120, 122, 137, 142). -/
structure Dataset where
  rows : List Record
  has_variacao_climatica : Bool
  has_flag_incidente_alta : Bool
  has_chuva_rol_30d : Bool
  has_producao_rol_7d : Bool
deriving DecidableEq, Repr

/-- The sidebar selector `agua_opcao` (options "Todos", "Sim", "Não"). -/
inductive AguaOpcao where
  | Todos
  | Sim
  | Nao
deriving DecidableEq, Repr

/-- The sidebar selector `tipo_opcao`
(options "Todos", "Climáticos", "Socioeconômicos"). -/
inductive TipoOpcao where
  | Todos
  | Climaticos
  | Socioeconomicos
deriving DecidableEq, Repr

/-- `map_agua = {"Sim": 1, "Não": 0}` (line 99); only consulted when the
selector is not "Todos" (line 117). -/
def map_agua : AguaOpcao → Bool
  | AguaOpcao.Sim => true
  | _ => false

/-- The FilterCriteria value object assembled from the sidebar widgets:
date range (`dt_ini`, `dt_fim`), vulnerability range (`faixa_vul`), water
selector and event-focus selector. -/
structure FilterCriteria where
  dt_ini : ℤ
  dt_fim : ℤ
  faixa_vul_lo : ℚ
  faixa_vul_hi : ℚ
  agua_opcao : AguaOpcao
  tipo_opcao : TipoOpcao
deriving DecidableEq, Repr

/-- Line 112: `df = df[(df["data"] >= dt_ini) & (df["data"] <= dt_fim)]`. -/
def filtroData (dt_ini dt_fim : ℤ) (rows : List Record) : List Record :=
  rows.filter fun r => decide (dt_ini ≤ r.data ∧ r.data ≤ dt_fim)

/-- Lines 113-116: inclusive vulnerability-index range filter. -/
def filtroVul (lo hi : ℚ) (rows : List Record) : List Record :=
  rows.filter fun r =>
    decide (lo ≤ r.indice_vulnerabilidade ∧ r.indice_vulnerabilidade ≤ hi)

/-- Lines 117-118: `if agua_opcao != "Todos": df = df[df["acesso_agua_potavel"] == map_agua[agua_opcao]]`. -/
def filtroAgua (op : AguaOpcao) (rows : List Record) : List Record :=
  if op = AguaOpcao.Todos then rows
  else rows.filter fun r => r.acesso_agua_potavel = map_agua op

/-- Lines 120-123: event-focus filter; each branch fires only when the
selector matches AND the flag column is present in the dataframe. -/
def filtroTipo (has_vc has_fi : Bool) (op : TipoOpcao) (rows : List Record) :
    List Record :=
  if op = TipoOpcao.Climaticos ∧ has_vc then
    rows.filter fun r => r.variacao_climatica
  else if op = TipoOpcao.Socioeconomicos ∧ has_fi then
    rows.filter fun r => r.flag_incidente_alta
  else rows

/-- Lines 111-123: `df = _df.copy()` followed by the four sequential
filters. The copy makes the stage pure with respect to `_df`. -/
def applyFilters (d : Dataset) (c : FilterCriteria) : List Record :=
  filtroTipo d.has_variacao_climatica d.has_flag_incidente_alta c.tipo_opcao
    (filtroAgua c.agua_opcao
      (filtroVul c.faixa_vul_lo c.faixa_vul_hi
        (filtroData c.dt_ini c.dt_fim d.rows)))

theorem mem_filtroData {r : Record} {a b : ℤ} {rows : List Record}
    (h : r ∈ filtroData a b rows) : r ∈ rows ∧ a ≤ r.data ∧ r.data ≤ b := by
  have := List.mem_filter.mp h
  simpa using this

theorem mem_filtroVul {r : Record} {lo hi : ℚ} {rows : List Record}
    (h : r ∈ filtroVul lo hi rows) :
    r ∈ rows ∧ lo ≤ r.indice_vulnerabilidade ∧ r.indice_vulnerabilidade ≤ hi := by
  have := List.mem_filter.mp h
  simpa using this

theorem mem_filtroAgua {r : Record} {op : AguaOpcao} {rows : List Record}
    (h : r ∈ filtroAgua op rows) :
    r ∈ rows ∧ (op ≠ AguaOpcao.Todos → r.acesso_agua_potavel = map_agua op) := by
  unfold filtroAgua at h
  by_cases hop : op = AguaOpcao.Todos
  · simp [hop] at h
    exact ⟨h, fun hc => absurd hop hc⟩
  · simp [hop] at h
    exact ⟨h.1, fun _ => h.2⟩

theorem mem_filtroTipo {r : Record} {hvc hfi : Bool} {op : TipoOpcao}
    {rows : List Record} (h : r ∈ filtroTipo hvc hfi op rows) :
    r ∈ rows ∧
      (op = TipoOpcao.Climaticos → hvc = true → r.variacao_climatica = true) ∧
      (op = TipoOpcao.Socioeconomicos → hfi = true → r.flag_incidente_alta = true) := by
  unfold filtroTipo at h
  by_cases h1 : op = TipoOpcao.Climaticos ∧ hvc
  · simp [h1] at h
    refine ⟨h.1, fun _ _ => h.2, fun hop _ => ?_⟩
    rw [h1.1] at hop; exact absurd hop (by decide)
  · by_cases h2 : op = TipoOpcao.Socioeconomicos ∧ hfi
    · simp [h1, h2] at h
      refine ⟨h.1, fun hop _ => ?_, fun _ _ => h.2⟩
      rw [h2.1] at hop; exact absurd hop (by decide)
    · simp [h1, h2] at h
      refine ⟨h, fun hop hb => ?_, fun hop hb => ?_⟩
      · exact absurd ⟨hop, hb⟩ h1
      · exact absurd ⟨hop, hb⟩ h2

theorem length_filtroTipo (hvc hfi : Bool) (op : TipoOpcao) (rows : List Record) :
    (filtroTipo hvc hfi op rows).length ≤ rows.length := by
  unfold filtroTipo
  split
  · exact List.length_filter_le _ _
  · split
    · exact List.length_filter_le _ _
    · exact le_refl _

theorem length_filtroAgua (op : AguaOpcao) (rows : List Record) :
    (filtroAgua op rows).length ≤ rows.length := by
  unfold filtroAgua
  split
  · exact le_refl _
  · exact List.length_filter_le _ _

/-- C1 (amended): the filtered view is never larger than the dataset, and
every record in it satisfies the date, vulnerability and water predicates,
and the event-flag predicate whenever the selector is not "Todos" AND the
corresponding flag column is present in the dataset. -/
theorem filter_engine_sound (d : Dataset) (c : FilterCriteria) :
    (applyFilters d c).length ≤ d.rows.length ∧
    ∀ r ∈ applyFilters d c,
      (c.dt_ini ≤ r.data ∧ r.data ≤ c.dt_fim) ∧
      (c.faixa_vul_lo ≤ r.indice_vulnerabilidade ∧
        r.indice_vulnerabilidade ≤ c.faixa_vul_hi) ∧
      (c.agua_opcao ≠ AguaOpcao.Todos →
        r.acesso_agua_potavel = map_agua c.agua_opcao) ∧
      (c.tipo_opcao = TipoOpcao.Climaticos → d.has_variacao_climatica = true →
        r.variacao_climatica = true) ∧
      (c.tipo_opcao = TipoOpcao.Socioeconomicos →
        d.has_flag_incidente_alta = true → r.flag_incidente_alta = true) := by
  constructor
  · calc (applyFilters d c).length
        ≤ (filtroAgua c.agua_opcao
            (filtroVul c.faixa_vul_lo c.faixa_vul_hi
              (filtroData c.dt_ini c.dt_fim d.rows))).length :=
          length_filtroTipo _ _ _ _
      _ ≤ (filtroVul c.faixa_vul_lo c.faixa_vul_hi
            (filtroData c.dt_ini c.dt_fim d.rows)).length :=
          length_filtroAgua _ _
      _ ≤ (filtroData c.dt_ini c.dt_fim d.rows).length :=
          List.length_filter_le _ _
      _ ≤ d.rows.length := List.length_filter_le _ _
  · intro r hr
    have h4 := mem_filtroTipo hr
    have h3 := mem_filtroAgua h4.1
    have h2 := mem_filtroVul h3.1
    have h1 := mem_filtroData h2.1
    exact ⟨h1.2, h2.2, h3.2, h4.2.1, h4.2.2⟩

/-- A record with no interesting attributes (used for concrete scenarios). -/
def c1Record : Record :=
  { data := 0, chuvas_reais_mm := 0, anomalia_chuva_mm := 0,
    volume_producao_tons := 0, incidencia_doencas := 0,
    acesso_agua_potavel := true, indice_vulnerabilidade := 0,
    indicador_seguranca_alimentar := 0, variacao_climatica := false,
    flag_incidente_alta := false, chuva_rol_30d := 0, producao_rol_7d := 0,
    agua_label := none }

/-- A one-record dataset LACKING the `flag_incidente_alta` column. -/
def c1Dataset : Dataset :=
  { rows := [c1Record], has_variacao_climatica := false,
    has_flag_incidente_alta := false, has_chuva_rol_30d := false,
    has_producao_rol_7d := false }

/-- Wide-open criteria with event focus "Socioeconômicos". -/
def c1Criteria : FilterCriteria :=
  { dt_ini := 0, dt_fim := 0, faixa_vul_lo := 0, faixa_vul_hi := 1,
    agua_opcao := AguaOpcao.Todos, tipo_opcao := TipoOpcao.Socioeconomicos }

/-- C1 (counterexample to the claim as stated): with the event-focus
selector set to "Socioeconômicos" but the `flag_incidente_alta` column
absent from the dataset, the filter is a pass-through (lines 122-123), so
the view contains a record whose event flag is not true. -/
theorem c1_event_flag_counterexample :
    c1Criteria.tipo_opcao ≠ TipoOpcao.Todos ∧
    ¬ (∀ r ∈ applyFilters c1Dataset c1Criteria,
        r.flag_incidente_alta = true) := by
  decide

/-- A dataset/criteria pair exercising each hypothesis of
`filter_engine_sound` concretely. -/
def c1wCriteria : FilterCriteria :=
  { dt_ini := 0, dt_fim := 5, faixa_vul_lo := 0, faixa_vul_hi := 1,
    agua_opcao := AguaOpcao.Sim, tipo_opcao := TipoOpcao.Socioeconomicos }

/-- The socioeconomic-flag column is present here. -/
def c1wDataset : Dataset :=
  { rows := [{ c1Record with flag_incidente_alta := true }],
    has_variacao_climatica := false, has_flag_incidente_alta := true,
    has_chuva_rol_30d := false, has_producao_rol_7d := false }

/-- C1 witness: `filter_engine_sound` applied at a concrete dataset,
criteria and record, with all hypotheses discharged by evaluation. -/
theorem filter_engine_sound_witness :
    ({ c1Record with flag_incidente_alta := true }).acesso_agua_potavel
        = map_agua c1wCriteria.agua_opcao ∧
    ({ c1Record with flag_incidente_alta := true }).flag_incidente_alta
        = true :=
  ⟨((filter_engine_sound c1wDataset c1wCriteria).2
      { c1Record with flag_incidente_alta := true } (by decide)).2.2.1
      (by decide),
   ((filter_engine_sound c1wDataset c1wCriteria).2
      { c1Record with flag_incidente_alta := true } (by decide)).2.2.2.2
      rfl rfl⟩

/-- Pandas `series.rolling(w, min_periods=1).mean()` (lines 138, 143):
entry `i` is the mean of the trailing window of up to `w` values ending at
`i` inclusive. -/
def rollingMean (w : ℕ) (xs : List ℚ) : List ℚ :=
  (List.range xs.length).map fun i =>
    ((xs.take (i + 1)).drop (i + 1 - w)).sum /
      (((xs.take (i + 1)).drop (i + 1 - w)).length : ℚ)

/-- Insert a record into a list kept ascending by the `data` column. -/
def insertByData (r : Record) : List Record → List Record
  | [] => [r]
  | x :: xs => if x.data ≤ r.data then x :: insertByData r xs else r :: x :: xs

/-- `df.sort_values("data")` (line 134): the view reordered ascending by
date (ties in unspecified order; modelled by insertion sort). -/
def sortByData (rows : List Record) : List Record :=
  rows.foldr insertByData []

/-- Lines 135-139: the rainfall series — the precomputed `chuva_rol_30d`
column if the dataset has it, else a 30-period rolling mean of
`chuvas_reais_mm` over the date-sorted view. -/
def chuvaRol (d : Dataset) (view : List Record) : List ℚ :=
  if d.has_chuva_rol_30d then (sortByData view).map fun r => r.chuva_rol_30d
  else rollingMean 30 ((sortByData view).map fun r => r.chuvas_reais_mm)

/-- Lines 140-144: the production series — the precomputed
`producao_rol_7d` column if present, else a 7-period rolling mean of
`volume_producao_tons` over the date-sorted view. -/
def producaoRol (d : Dataset) (view : List Record) : List ℚ :=
  if d.has_producao_rol_7d then (sortByData view).map fun r => r.producao_rol_7d
  else rollingMean 7 ((sortByData view).map fun r => r.volume_producao_tons)

theorem mem_insertByData {y r : Record} {l : List Record} :
    y ∈ insertByData r l ↔ y = r ∨ y ∈ l := by
  induction l with
  | nil => simp [insertByData]
  | cons x xs ih =>
      unfold insertByData
      by_cases h : x.data ≤ r.data
      · simp [h, ih]
        tauto
      · simp [h]

theorem pairwise_insertByData {r : Record} {l : List Record}
    (h : l.Pairwise fun a b => a.data ≤ b.data) :
    (insertByData r l).Pairwise fun a b => a.data ≤ b.data := by
  induction l with
  | nil => simp [insertByData]
  | cons x xs ih =>
      rw [List.pairwise_cons] at h
      unfold insertByData
      by_cases hx : x.data ≤ r.data
      · simp only [if_pos hx]
        rw [List.pairwise_cons]
        refine ⟨fun y hy => ?_, ih h.2⟩
        rcases mem_insertByData.mp hy with hyr | hyl
        · rw [hyr]; exact hx
        · exact h.1 y hyl
      · simp only [if_neg hx]
        rw [List.pairwise_cons]
        refine ⟨fun y hy => ?_, List.pairwise_cons.mpr h⟩
        have hrx : r.data ≤ x.data := le_of_lt (lt_of_not_le hx)
        rcases List.mem_cons.mp hy with hyx | hyl
        · rw [hyx]; exact hrx
        · exact le_trans hrx (h.1 y hyl)

theorem sortByData_sorted (rows : List Record) :
    (sortByData rows).Pairwise fun a b => a.data ≤ b.data := by
  induction rows with
  | nil => simp [sortByData]
  | cons x xs ih => exact pairwise_insertByData ih

theorem rollingMean_getD (w : ℕ) (xs : List ℚ) (i : ℕ) (hi : i < xs.length) :
    (rollingMean w xs).getD i 0 =
      ((xs.take (i + 1)).drop (i + 1 - w)).sum /
        (((xs.take (i + 1)).drop (i + 1 - w)).length : ℚ) := by
  unfold rollingMean
  rw [List.getD_eq_getElem?_getD, List.getElem?_map]
  simp [List.getElem?_range, hi]

/-- C2: the rolling series has the length of its input; before the window
fills (`i < w - 1`) entry `i` is the mean of elements `0..i`; once it
fills (`i ≥ w - 1`) entry `i` is the mean of exactly the `w` trailing
elements ending at `i`; and the rainfall (window 30) and production
(window 7) series are this rolling mean over the date-sorted filtered
view whenever no precomputed column short-circuits it, the sorted view
being ascending by date. -/
theorem rolling_mean_spec (w : ℕ) (xs : List ℚ) (hw : 1 ≤ w) :
    (rollingMean w xs).length = xs.length ∧
    (∀ i, i < xs.length → i < w - 1 →
      (rollingMean w xs).getD i 0 = (xs.take (i + 1)).sum / ((i : ℚ) + 1)) ∧
    (∀ i, i < xs.length → w - 1 ≤ i →
      ((xs.drop (i + 1 - w)).take w).length = w ∧
      (rollingMean w xs).getD i 0 =
        ((xs.drop (i + 1 - w)).take w).sum / (w : ℚ)) ∧
    (∀ d view, d.has_chuva_rol_30d = false →
      chuvaRol d view =
        rollingMean 30 ((sortByData view).map fun r => r.chuvas_reais_mm)) ∧
    (∀ d view, d.has_producao_rol_7d = false →
      producaoRol d view =
        rollingMean 7 ((sortByData view).map fun r => r.volume_producao_tons)) ∧
    (∀ view, (sortByData view).Pairwise fun a b => a.data ≤ b.data) := by
  refine ⟨by simp [rollingMean], fun i hi hiw => ?_, fun i hi hiw => ?_,
    fun d view hd => ?_, fun d view hd => ?_, sortByData_sorted⟩
  · -- window not yet full: `i + 1 ≤ w`, so nothing is dropped
    have h1 : i + 1 - w = 0 := Nat.sub_eq_zero_of_le (by omega)
    have h2 : (xs.take (i + 1)).length = i + 1 := by
      rw [List.length_take]; omega
    rw [rollingMean_getD w xs i hi, h1, List.drop_zero, h2]
    push_cast
    ring
  · -- full window: exactly `w` trailing elements
    have hwle : w ≤ i + 1 := by omega
    have heq : (xs.take (i + 1)).drop (i + 1 - w) =
        (xs.drop (i + 1 - w)).take w := by
      rw [List.drop_take]
      congr 1
      omega
    have hlen : ((xs.drop (i + 1 - w)).take w).length = w := by
      rw [List.length_take, List.length_drop]
      omega
    refine ⟨hlen, ?_⟩
    rw [rollingMean_getD w xs i hi, heq, hlen]
  · simp [chuvaRol, hd]
  · simp [producaoRol, hd]

/-- C2 witness: the spec applied at window 30 on a one-element series
(start-of-series case, mean of elements `0..0`) and at window 1 on a
two-element series (full-window case, one trailing element). -/
theorem rolling_mean_spec_witness :
    (rollingMean 30 [(5 : ℚ)]).getD 0 0 = ([(5 : ℚ)].take 1).sum / ((0 : ℚ) + 1) ∧
    (rollingMean 1 [(2 : ℚ), 4]).getD 1 0 =
      (([(2 : ℚ), 4].drop 1).take 1).sum / (1 : ℚ) :=
  ⟨(rolling_mean_spec 30 [(5 : ℚ)] (by decide)).2.1 0 (by decide) (by decide),
   ((rolling_mean_spec 1 [(2 : ℚ), 4] (by decide)).2.2.1 1 (by decide)
      (by decide)).2⟩

/-- `np.clip(x, lo, hi) = min(max(x, lo), hi)`. -/
def clip (x lo hi : ℚ) : ℚ := min (max x lo) hi

/-- `np.mean` over a series. -/
def mean (xs : List ℚ) : ℚ := xs.sum / (xs.length : ℚ)

/-- Line 236: `comp_clima = np.mean(np.clip(np.abs(df["anomalia_chuva_mm"]) / 200.0, 0, 1))`. -/
def comp_clima (view : List Record) : ℚ :=
  mean (view.map fun r => clip (|r.anomalia_chuva_mm| / 200) 0 1)

/-- Line 237: `comp_prod = np.mean(np.clip(1 - (df["volume_producao_tons"] / 20.0), 0, 1))`. -/
def comp_prod (view : List Record) : ℚ :=
  mean (view.map fun r => clip (1 - r.volume_producao_tons / 20) 0 1)

/-- Line 238: `comp_doencas = np.mean(np.clip(df["incidencia_doencas"] / 6.0, 0, 1))`. -/
def comp_doencas (view : List Record) : ℚ :=
  mean (view.map fun r => clip (r.incidencia_doencas / 6) 0 1)

/-- Line 239: `comp_agua = 1 - (df["acesso_agua_potavel"].sum() / len(df))`;
the column is 0/1 encoded, so its sum is the number of `true` records. -/
def comp_agua (view : List Record) : ℚ :=
  1 - ((view.countP fun r => r.acesso_agua_potavel : ℕ) : ℚ) /
    (view.length : ℚ)

/-- Line 240: `comp_food = np.mean(np.clip(1 - (df["indicador_seguranca_alimentar"] / 100.0), 0, 1))`. -/
def comp_food (view : List Record) : ℚ :=
  mean (view.map fun r => clip (1 - r.indicador_seguranca_alimentar / 100) 0 1)

/-- Spec formula (§4.3): climate = mean(clip(|rainfall_anomaly_mm| / 200, 0, 1)). -/
def spec_climate (view : List Record) : ℚ :=
  mean (view.map fun r => clip (|r.anomalia_chuva_mm| / 200) 0 1)

/-- Spec formula (§4.3): production = mean(clip(1 − production_tons/20, 0, 1)). -/
def spec_production (view : List Record) : ℚ :=
  mean (view.map fun r => clip (1 - r.volume_producao_tons / 20) 0 1)

/-- Spec formula (§4.3): disease = mean(clip(disease_incidence / 6, 0, 1)). -/
def spec_disease (view : List Record) : ℚ :=
  mean (view.map fun r => clip (r.incidencia_doencas / 6) 0 1)

/-- Spec formula (§4.3): water = 1 − (count of water_access=true / total records). -/
def spec_water (view : List Record) : ℚ :=
  1 - ((view.countP fun r => r.acesso_agua_potavel : ℕ) : ℚ) /
    (view.length : ℚ)

/-- Spec formula (§4.3): food = mean(clip(1 − food_security_indicator/100, 0, 1)). -/
def spec_food (view : List Record) : ℚ :=
  mean (view.map fun r => clip (1 - r.indicador_seguranca_alimentar / 100) 0 1)

/-- C3: each vulnerability component computed by the code equals the
spec's normalization formula, and the water component is 0 on an
all-access view and 1 on a no-access view. -/
theorem vulnerability_components_spec (view : List Record) (h : view ≠ []) :
    comp_clima view = spec_climate view ∧
    comp_prod view = spec_production view ∧
    comp_doencas view = spec_disease view ∧
    comp_agua view = spec_water view ∧
    comp_food view = spec_food view ∧
    ((∀ r ∈ view, r.acesso_agua_potavel = true) → comp_agua view = 0) ∧
    ((∀ r ∈ view, r.acesso_agua_potavel = false) → comp_agua view = 1) := by
  have hlen : (0 : ℚ) < (view.length : ℚ) := by
    have := List.length_pos.mpr h
    exact_mod_cast this
  refine ⟨rfl, rfl, rfl, rfl, rfl, fun hall => ?_, fun hnone => ?_⟩
  · have hcount : (view.countP fun r => r.acesso_agua_potavel) = view.length :=
      List.countP_eq_length.mpr fun r hr => by simp [hall r hr]
    unfold comp_agua
    rw [hcount, div_self (ne_of_gt hlen)]
    ring
  · have hcount : (view.countP fun r => r.acesso_agua_potavel) = 0 :=
      List.countP_eq_zero.mpr fun r hr => by simp [hnone r hr]
    unfold comp_agua
    rw [hcount]
    norm_num

/-- C3 witness: `vulnerability_components_spec` at concrete one-record
views, one with water access and one without. -/
theorem vulnerability_components_spec_witness :
    comp_agua [c1Record] = 0 ∧
    comp_agua [{ c1Record with acesso_agua_potavel := false }] = 1 :=
  ⟨(vulnerability_components_spec [c1Record] (by decide)).2.2.2.2.2.1
      (by decide),
   (vulnerability_components_spec [{ c1Record with acesso_agua_potavel := false }]
      (by decide)).2.2.2.2.2.2 (by decide)⟩

theorem clip01_bounds (x : ℚ) : 0 ≤ clip x 0 1 ∧ clip x 0 1 ≤ 1 :=
  ⟨le_min (le_max_right x 0) zero_le_one, min_le_right _ _⟩

theorem mean_bounds {xs : List ℚ} (h0 : ∀ x ∈ xs, 0 ≤ x ∧ x ≤ 1)
    (hne : xs ≠ []) : 0 ≤ mean xs ∧ mean xs ≤ 1 := by
  have hlen : (0 : ℚ) < (xs.length : ℚ) := by
    have := List.length_pos.mpr hne
    exact_mod_cast this
  have hsum0 : 0 ≤ xs.sum := List.sum_nonneg fun x hx => (h0 x hx).1
  have hsum1 : xs.sum ≤ (xs.length : ℚ) := by
    have := List.sum_le_card_nsmul xs 1 fun x hx => (h0 x hx).2
    simpa using this
  constructor
  · exact div_nonneg hsum0 (le_of_lt hlen)
  · rw [mean, div_le_one hlen]
    exact hsum1

theorem mapped_ne_nil {view : List Record} (h : view ≠ [])
    (f : Record → ℚ) : view.map f ≠ [] := by
  simpa using h

/-- C8: each of the five vulnerability components lies in [0,1] on any
non-empty filtered view. -/
theorem vulnerability_components_range (view : List Record) (h : view ≠ []) :
    (0 ≤ comp_clima view ∧ comp_clima view ≤ 1) ∧
    (0 ≤ comp_prod view ∧ comp_prod view ≤ 1) ∧
    (0 ≤ comp_doencas view ∧ comp_doencas view ≤ 1) ∧
    (0 ≤ comp_agua view ∧ comp_agua view ≤ 1) ∧
    (0 ≤ comp_food view ∧ comp_food view ≤ 1) := by
  have hb : ∀ (f : Record → ℚ),
      (∀ y ∈ view.map fun r => clip (f r) 0 1, 0 ≤ y ∧ y ≤ 1) := by
    intro f y hy
    rcases List.mem_map.mp hy with ⟨r, _, hry⟩
    rw [← hry]
    exact clip01_bounds (f r)
  have hlen : (0 : ℚ) < (view.length : ℚ) := by
    have := List.length_pos.mpr h
    exact_mod_cast this
  have hagua : 0 ≤ comp_agua view ∧ comp_agua view ≤ 1 := by
    have hc : ((view.countP fun r => r.acesso_agua_potavel : ℕ) : ℚ) ≤
        (view.length : ℚ) := by
      exact_mod_cast List.countP_le_length _
    have hq0 : 0 ≤ ((view.countP fun r => r.acesso_agua_potavel : ℕ) : ℚ) /
        (view.length : ℚ) :=
      div_nonneg (by positivity) (le_of_lt hlen)
    have hq1 : ((view.countP fun r => r.acesso_agua_potavel : ℕ) : ℚ) /
        (view.length : ℚ) ≤ 1 := (div_le_one hlen).mpr hc
    unfold comp_agua
    constructor <;> linarith
  exact ⟨mean_bounds (hb _) (mapped_ne_nil h _),
    mean_bounds (hb _) (mapped_ne_nil h _),
    mean_bounds (hb _) (mapped_ne_nil h _), hagua,
    mean_bounds (hb _) (mapped_ne_nil h _)⟩

/-- C8 witness: the bounds at a concrete one-record view. -/
theorem vulnerability_components_range_witness :
    0 ≤ comp_clima [c1Record] ∧ comp_agua [c1Record] ≤ 1 :=
  ⟨(vulnerability_components_range [c1Record] (by decide)).1.1,
   (vulnerability_components_range [c1Record] (by decide)).2.2.2.1.2⟩

/-- Numerator `Σ (x - x̄)²` of a column's variance (the `ddof` factor
cancels in Pearson's r, so only this sum matters; it is zero exactly when
the column's standard deviation is zero or the column has < 2 entries). -/
def varSum (xs : List ℚ) : ℚ := (xs.map fun a => (a - mean xs) ^ 2).sum

/-- Numerator `Σ (x - x̄)(y - ȳ)` of the covariance of two columns. -/
def covSum (xs ys : List ℚ) : ℚ :=
  (List.zipWith (fun a b => (a - mean xs) * (b - mean ys)) xs ys).sum

/-- One entry of pandas `df.corr()` (line 219): Pearson's
`r = Σ(x-x̄)(y-ȳ) / √(Σ(x-x̄)² Σ(y-ȳ)²)`; a zero-variance column (which
includes any column of a single-row frame) makes the entry NaN, modelled
as `none`. -/
noncomputable def corrEntry (xs ys : List ℚ) : Option ℝ :=
  if varSum xs = 0 ∨ varSum ys = 0 then none
  else some (((covSum xs ys : ℚ) : ℝ) /
    (Real.sqrt ((varSum xs : ℚ) : ℝ) * Real.sqrt ((varSum ys : ℚ) : ℝ)))

/-- Line 218: `df.select_dtypes(include=[np.number]).columns` — the
numeric columns of the frame: the seven mandatory numeric columns (the
datetime `data` and the string `agua_label` are excluded) plus whichever
optional 0/1-flag and precomputed-rolling columns the dataset has. -/
def numericCols (d : Dataset) : List (Record → ℚ) :=
  [fun r => r.chuvas_reais_mm, fun r => r.anomalia_chuva_mm,
    fun r => r.volume_producao_tons, fun r => r.incidencia_doencas,
    fun r => if r.acesso_agua_potavel then 1 else 0,
    fun r => r.indice_vulnerabilidade,
    fun r => r.indicador_seguranca_alimentar] ++
  (if d.has_variacao_climatica then
    [fun r => if r.variacao_climatica then 1 else 0] else []) ++
  (if d.has_flag_incidente_alta then
    [fun r => if r.flag_incidente_alta then 1 else 0] else []) ++
  (if d.has_chuva_rol_30d then [fun r => r.chuva_rol_30d] else []) ++
  (if d.has_producao_rol_7d then [fun r => r.producao_rol_7d] else [])

/-- Line 219: `corr_matrix = df[numeric_cols].corr()`. -/
noncomputable def corrMatrix (d : Dataset) (view : List Record) :
    List (List (Option ℝ)) :=
  (numericCols d).map fun f => (numericCols d).map fun g =>
    corrEntry (view.map f) (view.map g)

/-- Matrix entry access (out-of-range positions read as NaN). -/
def entryAt (m : List (List (Option ℝ))) (i j : ℕ) : Option ℝ :=
  (m.getD i []).getD j none

/-- The `i`-th numeric column selector. -/
def colAt (d : Dataset) (i : ℕ) : Record → ℚ :=
  (numericCols d).getD i fun _ => 0

theorem covSum_self (xs : List ℚ) : covSum xs xs = varSum xs := by
  unfold covSum varSum
  rw [List.zipWith_same]
  simp [pow_two]

theorem covSum_comm (xs ys : List ℚ) : covSum xs ys = covSum ys xs := by
  unfold covSum
  rw [List.zipWith_comm]
  have hfg : (fun b a => (a - mean xs) * (b - mean ys)) =
      fun a b => (a - mean ys) * (b - mean xs) := by
    funext a b
    ring
  rw [hfg]

theorem varSum_nonneg (xs : List ℚ) : 0 ≤ varSum xs := by
  unfold varSum
  apply List.sum_nonneg
  intro x hx
  rcases List.mem_map.mp hx with ⟨a, _, rfl⟩
  positivity

theorem varSum_singleton (x : ℚ) : varSum [x] = 0 := by
  simp [varSum, mean]

theorem corrEntry_comm (xs ys : List ℚ) : corrEntry xs ys = corrEntry ys xs := by
  unfold corrEntry
  by_cases h1 : varSum xs = 0
  · simp [h1]
  · by_cases h2 : varSum ys = 0
    · simp [h1, h2]
    · rw [if_neg (by simp [h1, h2]), if_neg (by simp [h1, h2]),
        covSum_comm xs ys, mul_comm]

theorem corrEntry_self (xs : List ℚ) (h : varSum xs ≠ 0) :
    corrEntry xs xs = some 1 := by
  unfold corrEntry
  rw [if_neg (by simp [h])]
  have hv : (0 : ℝ) ≤ ((varSum xs : ℚ) : ℝ) := by
    exact_mod_cast varSum_nonneg xs
  rw [covSum_self, Real.mul_self_sqrt hv]
  have hvne : ((varSum xs : ℚ) : ℝ) ≠ 0 := by exact_mod_cast h
  rw [div_self hvne]

theorem corrEntry_none_left {xs : List ℚ} (ys : List ℚ) (h : varSum xs = 0) :
    corrEntry xs ys = none := by
  unfold corrEntry
  rw [if_pos (Or.inl h)]

theorem corrEntry_none_right (xs : List ℚ) {ys : List ℚ} (h : varSum ys = 0) :
    corrEntry xs ys = none := by
  unfold corrEntry
  rw [if_pos (Or.inr h)]

theorem colAt_eq_getElem (d : Dataset) (i : ℕ) (hi : i < (numericCols d).length) :
    colAt d i = (numericCols d).get ⟨i, hi⟩ := by
  unfold colAt
  rw [List.getD_eq_getElem?_getD, List.getElem?_eq_getElem hi]
  simp

theorem getD_map {α β : Type} (f : α → β) (l : List α) (i : ℕ) (dflt : β)
    (hi : i < l.length) : (l.map f).getD i dflt = f (l.get ⟨i, hi⟩) := by
  simp [List.getD_eq_getElem?_getD, List.getElem?_map,
    List.getElem?_eq_getElem hi, List.get_eq_getElem]

theorem getD_map_oob {α β : Type} (f : α → β) (l : List α) (i : ℕ) (dflt : β)
    (hi : l.length ≤ i) : (l.map f).getD i dflt = dflt := by
  rw [List.getD_eq_getElem?_getD, List.getElem?_eq_none (by simpa using hi)]
  rfl

theorem entryAt_corrMatrix (d : Dataset) (view : List Record) (i j : ℕ)
    (hi : i < (numericCols d).length) (hj : j < (numericCols d).length) :
    entryAt (corrMatrix d view) i j =
      corrEntry (view.map (colAt d i)) (view.map (colAt d j)) := by
  unfold entryAt corrMatrix
  rw [getD_map _ _ i _ hi, getD_map _ _ j _ hj,
    colAt_eq_getElem d i hi, colAt_eq_getElem d j hj]

theorem entryAt_corrMatrix_oob (d : Dataset) (view : List Record) (i j : ℕ)
    (h : (numericCols d).length ≤ i ∨ (numericCols d).length ≤ j) :
    entryAt (corrMatrix d view) i j = none := by
  unfold entryAt corrMatrix
  by_cases hi : i < (numericCols d).length
  · have hj : (numericCols d).length ≤ j := by
      rcases h with h | h
      · omega
      · exact h
    rw [getD_map _ _ i _ hi, getD_map_oob _ _ j _ hj]
  · rw [getD_map_oob _ _ i _ (not_lt.mp hi)]
    rfl

/-- C4: the correlation matrix over the view's numeric columns is
symmetric; a diagonal entry whose column has nonzero variance is exactly
1; any entry involving a zero-variance column is NaN (`none`), and on a
single-record view every entry is NaN — never coerced to 0 or 1. -/
theorem corr_matrix_spec (d : Dataset) (view : List Record) :
    (∀ i j, entryAt (corrMatrix d view) i j = entryAt (corrMatrix d view) j i) ∧
    (∀ i, i < (numericCols d).length → varSum (view.map (colAt d i)) ≠ 0 →
      entryAt (corrMatrix d view) i i = some 1) ∧
    (∀ i j, i < (numericCols d).length → j < (numericCols d).length →
      varSum (view.map (colAt d i)) = 0 →
      entryAt (corrMatrix d view) i j = none ∧
      entryAt (corrMatrix d view) j i = none) ∧
    (∀ r, view = [r] → ∀ i j, entryAt (corrMatrix d view) i j = none) := by
  refine ⟨fun i j => ?_, fun i hi hv => ?_, fun i j hi hj hv => ?_,
    fun r hr i j => ?_⟩
  · by_cases hi : i < (numericCols d).length
    · by_cases hj : j < (numericCols d).length
      · rw [entryAt_corrMatrix d view i j hi hj,
          entryAt_corrMatrix d view j i hj hi]
        exact corrEntry_comm _ _
      · rw [entryAt_corrMatrix_oob d view i j (Or.inr (not_lt.mp hj)),
          entryAt_corrMatrix_oob d view j i (Or.inl (not_lt.mp hj))]
    · rw [entryAt_corrMatrix_oob d view i j (Or.inl (not_lt.mp hi)),
        entryAt_corrMatrix_oob d view j i (Or.inr (not_lt.mp hi))]
  · rw [entryAt_corrMatrix d view i i hi hi]
    exact corrEntry_self _ hv
  · rw [entryAt_corrMatrix d view i j hi hj,
      entryAt_corrMatrix d view j i hj hi]
    exact ⟨corrEntry_none_left _ hv, corrEntry_none_right _ hv⟩
  · by_cases hi : i < (numericCols d).length
    · by_cases hj : j < (numericCols d).length
      · rw [entryAt_corrMatrix d view i j hi hj, hr]
        exact corrEntry_none_left _ (varSum_singleton _)
      · exact entryAt_corrMatrix_oob d view i j (Or.inr (not_lt.mp hj))
    · exact entryAt_corrMatrix_oob d view i j (Or.inl (not_lt.mp hi))

/-- A two-record view whose first numeric column has nonzero variance. -/
def c4View : List Record := [c1Record, { c1Record with chuvas_reais_mm := 1 }]

/-- C4 witness: a concrete nonzero-variance diagonal entry equal to 1,
and a concrete single-record view whose entries are all NaN. -/
theorem corr_matrix_spec_witness :
    entryAt (corrMatrix c1Dataset c4View) 0 0 = some 1 ∧
    entryAt (corrMatrix c1Dataset [c1Record]) 0 1 = none :=
  ⟨(corr_matrix_spec c1Dataset c4View).2.1 0
      (by simp [numericCols, c1Dataset])
      (by norm_num [varSum, mean, colAt, numericCols, c1Dataset, c4View,
        c1Record]),
   (corr_matrix_spec c1Dataset [c1Record]).2.2.2 c1Record rfl 0 1⟩

/-- Severity of a user-visible status message: `st.error` vs `st.warning`. -/
inductive Severity where
  | error
  | warning
deriving DecidableEq, Repr

/-- The three user-visible status conditions of the script: missing input
file (lines 54-56), inverted date range (lines 78-79), empty filtered
result (lines 125-127). -/
inductive MsgKind where
  | dataUnavailable
  | invalidRange
  | emptyResult
deriving DecidableEq, Repr

/-- The derived metrics computed for the charts of one render pass. -/
structure Metrics where
  chuva_series : List ℚ
  producao_series : List ℚ
  corr : List (List (Option ℝ))
  radar_values : List ℚ

/-- Lines 134-144, 218-219, 236-243: everything derived from a non-empty
filtered view. -/
noncomputable def computeMetrics (d : Dataset) (view : List Record) : Metrics :=
  { chuva_series := chuvaRol d view
    producao_series := producaoRol d view
    corr := corrMatrix d view
    radar_values := [comp_clima view, comp_prod view, comp_doencas view,
      comp_agua view, comp_food view] }

/-- Observable outcome of one render pass: the messages shown, whether the
script stopped (`st.stop`), the filtered view, and the derived metrics
(`none` when derivation was skipped). -/
structure RenderOutput where
  messages : List (Severity × MsgKind)
  stopped : Bool
  view : List Record
  metrics : Option Metrics

/-- The script's control flow from the filters to the charts (lines
78-79, 111-127, then the chart sections): the inverted-range check is a
non-fatal `st.sidebar.error`; an empty view triggers `st.warning` and
`st.stop()`, skipping all derivation. -/
noncomputable def renderPass (d : Dataset) (c : FilterCriteria) : RenderOutput :=
  let warn : List (Severity × MsgKind) :=
    if c.dt_fim < c.dt_ini then [(Severity.error, MsgKind.invalidRange)] else []
  let view := applyFilters d c
  if view.isEmpty then
    { messages := warn ++ [(Severity.warning, MsgKind.emptyResult)],
      stopped := true, view := view, metrics := none }
  else
    { messages := warn, stopped := false, view := view,
      metrics := some (computeMetrics d view) }

/-- Lines 54-56: missing `dados_integrados.csv` — `st.error` + `st.stop()`
before anything else runs. -/
def loadFailureOutput : RenderOutput :=
  { messages := [(Severity.error, MsgKind.dataUnavailable)],
    stopped := true, view := [], metrics := none }

theorem filtroAgua_nil (op : AguaOpcao) : filtroAgua op [] = [] := by
  unfold filtroAgua
  split <;> rfl

theorem filtroTipo_nil (hvc hfi : Bool) (op : TipoOpcao) :
    filtroTipo hvc hfi op [] = [] := by
  unfold filtroTipo
  split
  · rfl
  · split <;> rfl

theorem applyFilters_empty_of_inverted (d : Dataset) (c : FilterCriteria)
    (h : c.dt_fim < c.dt_ini) : applyFilters d c = [] := by
  have hdata : filtroData c.dt_ini c.dt_fim d.rows = [] := by
    apply List.filter_eq_nil_iff.mpr
    intro r _
    simp only [decide_eq_true_eq, not_and, not_le]
    intro h1
    omega
  unfold applyFilters
  rw [hdata]
  simp [filtroVul, filtroAgua_nil, filtroTipo_nil]

/-- C5: with an inverted date range the pass surfaces the `InvalidRange`
advisory (non-fatally: stopping is decided solely by view emptiness) and
still filters with the literal, unswapped bounds, which here necessarily
yields the empty view — the bounds are never swapped. -/
theorem inverted_range_spec (d : Dataset) (c : FilterCriteria)
    (h : c.dt_fim < c.dt_ini) :
    (Severity.error, MsgKind.invalidRange) ∈ (renderPass d c).messages ∧
    (renderPass d c).view = applyFilters d c ∧
    applyFilters d c = [] ∧
    (renderPass d c).stopped = (applyFilters d c).isEmpty := by
  have hempty := applyFilters_empty_of_inverted d c h
  refine ⟨?_, ?_, hempty, ?_⟩ <;> simp [renderPass, hempty, h]

/-- Criteria whose start date is strictly after its end date. -/
def c5Criteria : FilterCriteria :=
  { dt_ini := 1, dt_fim := 0, faixa_vul_lo := 0, faixa_vul_hi := 1,
    agua_opcao := AguaOpcao.Todos, tipo_opcao := TipoOpcao.Todos }

/-- C5 witness: the inverted-range behaviour at a concrete dataset and
concrete inverted bounds. -/
theorem inverted_range_spec_witness :
    (Severity.error, MsgKind.invalidRange) ∈
      (renderPass c1Dataset c5Criteria).messages ∧
    applyFilters c1Dataset c5Criteria = [] :=
  ⟨(inverted_range_spec c1Dataset c5Criteria (by decide)).1,
   (inverted_range_spec c1Dataset c5Criteria (by decide)).2.2.1⟩

/-- C6: an empty filtered view stops the pass before any derivation (no
metrics, hence no rolling series, correlation matrix, components or
charts), shows the empty-result advisory as a warning, and is signalled
distinctly from the data-load failure (which is an error of a different
kind). -/
theorem empty_view_spec (d : Dataset) (c : FilterCriteria)
    (h : applyFilters d c = []) :
    (renderPass d c).stopped = true ∧
    (renderPass d c).metrics = none ∧
    (Severity.warning, MsgKind.emptyResult) ∈ (renderPass d c).messages ∧
    (∀ s, (s, MsgKind.dataUnavailable) ∉ (renderPass d c).messages) ∧
    (Severity.error, MsgKind.dataUnavailable) ∈ loadFailureOutput.messages ∧
    loadFailureOutput.metrics = none := by
  refine ⟨?_, ?_, ?_, fun s => ?_, by simp [loadFailureOutput], rfl⟩ <;>
    by_cases hc : c.dt_fim < c.dt_ini <;>
      simp [renderPass, h, hc, loadFailureOutput]

/-- A dataset with no rows at all (its filtered view is always empty). -/
def c6Dataset : Dataset :=
  { rows := [], has_variacao_climatica := false,
    has_flag_incidente_alta := false, has_chuva_rol_30d := false,
    has_producao_rol_7d := false }

/-- C6 witness: the empty-view short-circuit at a concrete dataset and
criteria. -/
theorem empty_view_spec_witness :
    (renderPass c6Dataset c1Criteria).metrics = none ∧
    (Severity.warning, MsgKind.emptyResult) ∈
      (renderPass c6Dataset c1Criteria).messages :=
  ⟨(empty_view_spec c6Dataset c1Criteria rfl).2.1,
   (empty_view_spec c6Dataset c1Criteria rfl).2.2.1⟩

/-- C7: when the flag column backing the chosen event focus is absent the
event-focus step is a pass-through (for any row list), and consequently a
dataset lacking `flag_incidente_alta` filtered with focus
"Socioeconômicos" — all other criteria passing every record — comes back
unchanged, with no error; analogously for `variacao_climatica` with focus
"Climáticos". -/
theorem event_focus_noop :
    (∀ (hvc : Bool) (rows : List Record),
      filtroTipo hvc false TipoOpcao.Socioeconomicos rows = rows) ∧
    (∀ (hfi : Bool) (rows : List Record),
      filtroTipo false hfi TipoOpcao.Climaticos rows = rows) ∧
    (∀ (d : Dataset) (c : FilterCriteria),
      d.has_flag_incidente_alta = false →
      c.tipo_opcao = TipoOpcao.Socioeconomicos →
      c.agua_opcao = AguaOpcao.Todos →
      (∀ r ∈ d.rows, c.dt_ini ≤ r.data ∧ r.data ≤ c.dt_fim) →
      (∀ r ∈ d.rows, c.faixa_vul_lo ≤ r.indice_vulnerabilidade ∧
        r.indice_vulnerabilidade ≤ c.faixa_vul_hi) →
      applyFilters d c = d.rows) ∧
    (∀ (d : Dataset) (c : FilterCriteria),
      d.has_variacao_climatica = false →
      c.tipo_opcao = TipoOpcao.Climaticos →
      c.agua_opcao = AguaOpcao.Todos →
      (∀ r ∈ d.rows, c.dt_ini ≤ r.data ∧ r.data ≤ c.dt_fim) →
      (∀ r ∈ d.rows, c.faixa_vul_lo ≤ r.indice_vulnerabilidade ∧
        r.indice_vulnerabilidade ≤ c.faixa_vul_hi) →
      applyFilters d c = d.rows) := by
  have hpass : ∀ (d : Dataset) (c : FilterCriteria),
      (c.tipo_opcao = TipoOpcao.Socioeconomicos →
        d.has_flag_incidente_alta = false) →
      (c.tipo_opcao = TipoOpcao.Climaticos →
        d.has_variacao_climatica = false) →
      c.tipo_opcao ≠ TipoOpcao.Todos →
      c.agua_opcao = AguaOpcao.Todos →
      (∀ r ∈ d.rows, c.dt_ini ≤ r.data ∧ r.data ≤ c.dt_fim) →
      (∀ r ∈ d.rows, c.faixa_vul_lo ≤ r.indice_vulnerabilidade ∧
        r.indice_vulnerabilidade ≤ c.faixa_vul_hi) →
      applyFilters d c = d.rows := by
    intro d c hfi hvc _ hagua hdate hvul
    have hdata : filtroData c.dt_ini c.dt_fim d.rows = d.rows := by
      apply List.filter_eq_self.mpr
      intro r hr
      simpa using hdate r hr
    have hvul2 : filtroVul c.faixa_vul_lo c.faixa_vul_hi d.rows = d.rows := by
      apply List.filter_eq_self.mpr
      intro r hr
      simpa using hvul r hr
    unfold applyFilters
    rw [hdata, hvul2]
    rw [show filtroAgua c.agua_opcao d.rows = d.rows by simp [filtroAgua, hagua]]
    cases htipo : c.tipo_opcao with
    | Todos => simp [filtroTipo]
    | Climaticos => simp [filtroTipo, hvc htipo]
    | Socioeconomicos => simp [filtroTipo, hfi htipo]
  refine ⟨fun hvc rows => by simp [filtroTipo], fun hfi rows => by simp [filtroTipo],
    fun d c h1 h2 h3 h4 h5 => ?_, fun d c h1 h2 h3 h4 h5 => ?_⟩
  · exact hpass d c (fun _ => h1) (fun hcl => by rw [h2] at hcl; cases hcl)
      (by rw [h2]; decide) h3 h4 h5
  · exact hpass d c (fun hso => by rw [h2] at hso; cases hso) (fun _ => h1)
      (by rw [h2]; decide) h3 h4 h5

/-- C7 witness: a concrete one-record dataset lacking
`flag_incidente_alta`, filtered with focus "Socioeconômicos" and otherwise
all-passing criteria, comes back equal to the dataset. -/
theorem event_focus_noop_witness :
    applyFilters c1Dataset c1Criteria = c1Dataset.rows :=
  event_focus_noop.2.2.1 c1Dataset c1Criteria rfl rfl rfl
    (by decide) (by decide)

/-- Line 198's value map `{0: "Sem acesso", 1: "Com acesso"}`. -/
def mapa_agua_label (b : Bool) : String :=
  if b then "Com acesso" else "Sem acesso"

/-- Line 198: `df["agua_label"] = df["acesso_agua_potavel"].map(...)` —
the boxplot section writes a new column into the filtered view in place. -/
def boxplotStage (df : List Record) : List Record :=
  df.map fun r =>
    { r with agua_label := some (mapa_agua_label r.acesso_agua_potavel) }

/-- The pass as a transformer of the two live tables: `_df` (the loaded
dataset, copied at line 111 and never written) and `df` (the filtered
view, mutated at line 198). -/
def runPass (d : Dataset) (c : FilterCriteria) : Dataset × List Record :=
  (d, boxplotStage (applyFilters d c))

/-- C9 (counterexample to the claim as stated): the boxplot chart builder
does alter the filtered view it receives — after line 198 the view
differs from the filter stage's output. -/
theorem c9_mutation_counterexample :
    boxplotStage (applyFilters c1Dataset c1Criteria) ≠
      applyFilters c1Dataset c1Criteria := by
  decide

/-- C9 (amended): the loaded Dataset passes through the pass unchanged
(line 111 copies before filtering), and the only in-place change to the
filtered view is the `agua_label` column added at line 198 — erasing that
column recovers the filter stage's output exactly, and no record is added
or removed. -/
theorem pipeline_mutation_spec (d : Dataset) (c : FilterCriteria) :
    (runPass d c).1 = d ∧
    ((runPass d c).2.map fun r => { r with agua_label := none }) =
      ((applyFilters d c).map fun r => { r with agua_label := none }) ∧
    (runPass d c).2.length = (applyFilters d c).length := by
  refine ⟨rfl, ?_, by simp [runPass, boxplotStage]⟩
  unfold runPass boxplotStage
  rw [List.map_map]
  rfl

/-- The `st.date_input` result (lines 67-76): a (start, end) tuple, or a
single date while the user has picked only one end of the range. -/
inductive PeriodoInput where
  | single (day : ℤ)
  | range (first last : ℤ)
deriving DecidableEq, Repr

/-- Lines 73-76: tuple input is unpacked as (dt_ini, dt_fim); a lone date
sets both bounds to it. -/
def unpackPeriodo : PeriodoInput → ℤ × ℤ
  | PeriodoInput.range a b => (a, b)
  | PeriodoInput.single day => (day, day)

/-- C10: a single-date widget value makes both bounds that date, and the
(inclusive) date predicate then keeps exactly the records dated that day;
`unpackPeriodo` is total, so the pass proceeds normally on the non-tuple
input. -/
theorem single_date_spec (day : ℤ) (rows : List Record) :
    unpackPeriodo (PeriodoInput.single day) = (day, day) ∧
    filtroData day day rows = rows.filter fun r => decide (r.data = day) := by
  refine ⟨rfl, ?_⟩
  unfold filtroData
  apply List.filter_congr
  intro r _
  have hiff : (day ≤ r.data ∧ r.data ≤ day) ↔ r.data = day := by omega
  simp [hiff]

end Dashboard
